import Mathlib

/-!
Shallow embedding of the LAL natural-language-to-shell-command tool:
the Flask backend `src/api_server.py` (rate-limited proxy with provider
fallback) and the local CLI tools `src/Extra/lal.py` and
`src/Extra/lal_simple.py` (direct provider call plus a confirm-then-execute
gate).  Network interactions are modelled by passing the upstream HTTP
response (status plus the relevant payload fields) as an explicit argument;
everything else is translated directly from the Python source.
-/

namespace LalSpec

/-! Server model: `src/api_server.py`. -/

/-- DAILY_LIMIT constant from api_server.py line 20. -/
def DAILY_LIMIT : Nat := 50

/-- The in-memory `usage_tracker` dict, as an association list from the
string key `f"{user_id}:{today}"` to a request count. -/
abbrev Tracker := List (String × Nat)

/-- Dict read with default 0, i.e. `usage_tracker.get(key, 0)`; also the
value of `usage_tracker[key]` at keys known to be present. -/
def Tracker.getCount : Tracker → String → Nat
  | [], _ => 0
  | (k, v) :: rest, key => if k = key then v else Tracker.getCount rest key

/-- Dict membership test, i.e. `key in usage_tracker`. -/
def Tracker.containsKey : Tracker → String → Bool
  | [], _ => false
  | (k, _) :: rest, key => k = key || Tracker.containsKey rest key

/-- Dict write, i.e. `usage_tracker[key] = v`. -/
def Tracker.setCount : Tracker → String → Nat → Tracker
  | [], key, v => [(key, v)]
  | (k, w) :: rest, key, v =>
    if k = key then (k, v) :: rest else (k, w) :: Tracker.setCount rest key v

/-- The composite quota key `f"{user_id}:{today}"` (api_server.py line 30).
The current day is passed explicitly instead of reading the wall clock. -/
def quotaKey (user_id day : String) : String := user_id ++ ":" ++ day

/-- check_rate_limit from api_server.py lines 27-39: inserts 0 for a fresh
key, denies when the count has reached DAILY_LIMIT, otherwise increments.
Returns the boolean result together with the updated tracker. -/
def check_rate_limit (t : Tracker) (user_id day : String) : Bool × Tracker :=
  let key := quotaKey user_id day
  let t1 := if t.containsKey key then t else t.setCount key 0
  if DAILY_LIMIT ≤ t1.getCount key then (false, t1)
  else (true, t1.setCount key (t1.getCount key + 1))

/-- An upstream HTTP response as the provider-call code observes it:
the status code, the nested text field of the payload when it is present
(`result['content'][0]['text']` resp. `result['choices'][0]['message']['content']`),
and the rendering of the payload's error field used in the exception
message of the non-success branch. -/
structure ApiResponse where
  status : Nat
  text : Option String
  errorField : String
deriving DecidableEq, Repr

/-- Python str.startswith on the exception message, over the character
lists so that it evaluates by kernel reduction. -/
def pyStartsWith (s pre : String) : Bool := List.isPrefixOf pre.data s.data

/-- Python str.strip() on the extracted text: leading and trailing
whitespace removed.  (Defined over the character list so that it
evaluates by kernel reduction.) -/
def pyStrip (s : String) : String :=
  ⟨((s.data.dropWhile Char.isWhitespace).reverse.dropWhile Char.isWhitespace).reverse⟩

/-- call_anthropic from api_server.py lines 41-65, as a function of the
upstream response.  On status 200 it extracts and strips the text field;
a missing field raises a KeyError whose message is the quoted key name
(which does not start with "API error").  On non-success it raises
`Exception(f"API error: {...}")`. -/
def call_anthropic (resp : ApiResponse) : Except String String :=
  if resp.status = 200 then
    match resp.text with
    | some t => .ok (pyStrip t)
    | none => .error "\x27content\x27"
  else .error ("API error: " ++ resp.errorField)

/-- call_openai from api_server.py lines 67-98, same shape as
call_anthropic but extracting from the OpenAI payload. -/
def call_openai (resp : ApiResponse) : Except String String :=
  if resp.status = 200 then
    match resp.text with
    | some t => .ok (pyStrip t)
    | none => .error "\x27choices\x27"
  else .error ("API error: " ++ resp.errorField)

/-- The two server-side credentials (api_server.py lines 15-16). -/
structure ServerEnv where
  anthropic_api_key : Option String
  openai_api_key : Option String
deriving DecidableEq, Repr

/-- Outcome of one /generate request, tagged by the HTTP status the
handler returns: 200, 400, 429 or 500. -/
inductive ServerResult where
  | ok (command : String) (remaining : Int)
  | missingPrompt
  | rateLimited (message : String)
  | serverError (message : String)
deriving DecidableEq, Repr

/-- How many times each provider-call function ran during one request. -/
structure CallTrace where
  anthropicCalls : Nat
  openaiCalls : Nat
deriving DecidableEq, Repr

/-- Result, final tracker state and call counts of one /generate request. -/
structure ServerStep where
  result : ServerResult
  tracker : Tracker
  trace : CallTrace
deriving DecidableEq, Repr

/-- Association-list lookup on the parsed JSON body. -/
def lookupJson : List (String × String) → String → Option String
  | [], _ => none
  | (k, v) :: rest, key => if k = key then some v else lookupJson rest key

/-- The validation at api_server.py lines 104-106: `request.get_json()`
yields `none` when no JSON body parses, otherwise the JSON object as an
association list.  `if not data or 'prompt' not in data` rejects a missing
body, an empty object, and an object without the key "prompt"; otherwise
`data['prompt']` is read.  Note that an empty-string prompt is accepted. -/
def extractPrompt (body : Option (List (String × String))) : Option String :=
  match body with
  | none => none
  | some kvs => if kvs.isEmpty then none else lookupJson kvs "prompt"

/-- The 429 message built at api_server.py line 115. -/
def rateLimitMessage : String :=
  "Daily limit of " ++ toString DAILY_LIMIT ++ " requests reached. Try again tomorrow."

/-- generate_command from api_server.py lines 100-145.  `anthResp` and
`oaResp` are the upstream responses the two provider calls would observe
if made; the trace records which calls actually ran.  The fallback at
lines 126-134 runs only when the primary exception message starts with
"API error" and both keys are configured; any other exception is re-raised
and becomes a 500 with the exception text (line 145). -/
def generate_command (env : ServerEnv) (t : Tracker) (user_id day : String)
    (body : Option (List (String × String)))
    (anthResp oaResp : ApiResponse) : ServerStep :=
  match extractPrompt body with
  | none => ⟨.missingPrompt, t, ⟨0, 0⟩⟩
  | some _prompt =>
    let chk := check_rate_limit t user_id day
    if !chk.1 then ⟨.rateLimited rateLimitMessage, chk.2, ⟨0, 0⟩⟩
    else
      let remaining : Int :=
        (DAILY_LIMIT : Int) - (chk.2.getCount (quotaKey user_id day) : Int)
      match env.anthropic_api_key with
      | some _ =>
        match call_anthropic anthResp with
        | .ok cmd => ⟨.ok cmd remaining, chk.2, ⟨1, 0⟩⟩
        | .error e =>
          if pyStartsWith e "API error" && env.openai_api_key.isSome then
            match call_openai oaResp with
            | .ok cmd => ⟨.ok cmd remaining, chk.2, ⟨1, 1⟩⟩
            | .error fe => ⟨.serverError ("Both APIs failed: " ++ fe), chk.2, ⟨1, 1⟩⟩
          else ⟨.serverError e, chk.2, ⟨1, 0⟩⟩
      | none =>
        match env.openai_api_key with
        | some _ =>
          match call_openai oaResp with
          | .ok cmd => ⟨.ok cmd remaining, chk.2, ⟨0, 1⟩⟩
          | .error e => ⟨.serverError e, chk.2, ⟨0, 1⟩⟩
        | none => ⟨.serverError "No API keys configured on server", chk.2, ⟨0, 0⟩⟩

/-- N consecutive /generate requests from the same caller on the same day
with the same body and the same upstream behaviour, threading the tracker. -/
def runRequests (env : ServerEnv) (user_id day : String)
    (body : Option (List (String × String)))
    (anthResp oaResp : ApiResponse) : Nat → Tracker → List ServerResult × Tracker
  | 0, t => ([], t)
  | n + 1, t =>
    let step := generate_command env t user_id day body anthResp oaResp
    let rest := runRequests env user_id day body anthResp oaResp n step.tracker
    (step.result :: rest.1, rest.2)

/-- Response body of GET /usage/<user_token> (api_server.py lines 152-165). -/
structure UsageResponse where
  daily_limit : Nat
  used_today : Nat
  remaining_today : Int
  date : String
deriving DecidableEq, Repr

/-- get_usage from api_server.py lines 152-165: a pure read of the tracker
with default 0; the handler performs no write, so the tracker is returned
unchanged. -/
def get_usage (t : Tracker) (user_token day : String) : UsageResponse × Tracker :=
  let key := user_token ++ ":" ++ day
  let used := t.getCount key
  (⟨DAILY_LIMIT, used, (DAILY_LIMIT : Int) - (used : Int), day⟩, t)

/-! CLI model: `src/Extra/lal.py` and `src/Extra/lal_simple.py`. -/

/-- The two vendors selectable via the --provider flag. -/
inductive Vendor where
  | openai
  | anthropic
deriving DecidableEq, Repr

/-- The environment variables the CLI reads. -/
structure Env where
  anthropic_api_key : Option String
  openai_api_key : Option String
deriving DecidableEq, Repr

/-- An instantiated provider client (lal.py classes OpenAIProvider and
AnthropicProvider), carrying the api_key and model it was built with. -/
inductive Provider where
  | OpenAIProvider (api_key model : String)
  | AnthropicProvider (api_key model : String)
deriving DecidableEq, Repr

/-- Python `model or default`: the default is used when the option is
absent or the string is empty (Python falsiness). -/
def pyOr (m : Option String) (d : String) : String :=
  match m with
  | some s => if s.isEmpty then d else s
  | none => d

/-- get_ai_provider from lal.py lines 110-123: Anthropic first, then
OpenAI, else an exception. -/
def get_ai_provider (env : Env) : Except String Provider :=
  match env.anthropic_api_key with
  | some k => .ok (.AnthropicProvider k "claude-3-5-haiku-20241022")
  | none =>
    match env.openai_api_key with
    | some k => .ok (.OpenAIProvider k "gpt-4o-mini")
    | none =>
      .error "No AI provider configured. Set OPENAI_API_KEY or ANTHROPIC_API_KEY environment variable."

/-- The provider-selection portion of lal.py main (lines 157-173): an
explicit --provider flag demands that vendor's own key and fails without
touching the other; with no flag, get_ai_provider decides (and the --model
override is ignored on that path, as in the source). -/
def select_provider (env : Env) (providerFlag : Option Vendor) (model : Option String) :
    Except String Provider :=
  match providerFlag with
  | some .openai =>
    match env.openai_api_key with
    | none => .error "OPENAI_API_KEY not set"
    | some k => .ok (.OpenAIProvider k (pyOr model "gpt-4o-mini"))
  | some .anthropic =>
    match env.anthropic_api_key with
    | none => .error "ANTHROPIC_API_KEY not set"
    | some k => .ok (.AnthropicProvider k (pyOr model "claude-3-5-haiku-20241022"))
  | none => get_ai_provider env

/-- Observable effects of one CLI run: the provider clients whose
generate call ran (network calls), the strings passed to `os.system`,
the command displayed, and the error printed, if any. -/
structure CliRun (α : Type) where
  calls : List α
  shellExecs : List String
  printedCommand : Option String
  errorMsg : Option String
deriving DecidableEq, Repr

/-- main from lal.py lines 131-197.  `gen` is the behaviour of the chosen
provider's generate_command method (success value or exception message);
`confirmExec` is the answer to the `Confirm.ask` prompt.  --config and a
missing prompt return early; a selection error or a generate exception is
printed with no execution; `os.system` runs only when --execute was given
and the confirmation was affirmative. -/
def lal_main (env : Env) (config : Bool) (prompt : Option String) (execute : Bool)
    (providerFlag : Option Vendor) (model : Option String)
    (gen : Provider → String → Except String String) (confirmExec : Bool) :
    CliRun Provider :=
  if config then ⟨[], [], none, none⟩
  else
    match prompt with
    | none => ⟨[], [], none, none⟩
    | some p =>
      match select_provider env providerFlag model with
      | .error e => ⟨[], [], none, some e⟩
      | .ok ai =>
        match gen ai p with
        | .error e => ⟨[ai], [], none, some e⟩
        | .ok command =>
          if execute then
            if confirmExec then ⟨[ai], [command], some command, none⟩
            else ⟨[ai], [], some command, none⟩
          else ⟨[ai], [], some command, none⟩

/-- The provider-choice block of lal_simple.py main (lines 166-182): an
explicit provider string demands its own key; any other flag value falls
through to auto-selection, which prefers Anthropic and otherwise uses the
OpenAI key (known present because the both-absent case returned earlier). -/
def chooseSimpleVendor (env : Env) (providerFlag : Option String) :
    Except String Vendor :=
  if providerFlag = some "openai" then
    if env.openai_api_key.isNone then .error "OpenAI API key not set"
    else .ok .openai
  else if providerFlag = some "anthropic" then
    if env.anthropic_api_key.isNone then .error "Anthropic API key not set"
    else .ok .anthropic
  else if env.anthropic_api_key.isSome then .ok .anthropic
  else .ok .openai

/-- Python str.lower() over the character list, so that it evaluates by
kernel reduction. -/
def pyLower (s : String) : String := ⟨s.data.map Char.toLower⟩

/-- main from lal_simple.py lines 125-198, from the point where a prompt
is present and the run is not --config.  Both keys absent aborts before
any provider choice; the gen argument is the behaviour of the chosen
vendor's request function; `confirmInput` is the raw answer to the
execute prompt, compared lowercased against "y". -/
def lal_simple_main (env : Env) (prompt : String) (execute : Bool)
    (providerFlag : Option String)
    (gen : Vendor → String → Except String String) (confirmInput : String) :
    CliRun Vendor :=
  if env.anthropic_api_key.isNone && env.openai_api_key.isNone then
    ⟨[], [], none, some "No API keys found. Set ANTHROPIC_API_KEY or OPENAI_API_KEY"⟩
  else
    match chooseSimpleVendor env providerFlag with
    | .error e => ⟨[], [], none, some e⟩
    | .ok v =>
      match gen v prompt with
      | .error e => ⟨[v], [], none, some e⟩
      | .ok command =>
        if execute then
          if pyLower confirmInput = "y" then ⟨[v], [command], some command, none⟩
          else ⟨[v], [], some command, none⟩
        else ⟨[v], [], some command, none⟩

/-! Helper lemmas about the tracker and the rate limiter. -/

theorem Tracker.getCount_setCount_self (t : Tracker) (k : String) (v : Nat) :
    (t.setCount k v).getCount k = v := by
  induction t with
  | nil => simp [Tracker.setCount, Tracker.getCount]
  | cons hd tl ih =>
    obtain ⟨k0, v0⟩ := hd
    by_cases h : k0 = k <;> simp [Tracker.setCount, Tracker.getCount, h, ih]

theorem Tracker.getCount_eq_zero_of_not_contains (t : Tracker) (k : String)
    (h : t.containsKey k = false) : t.getCount k = 0 := by
  induction t with
  | nil => simp [Tracker.getCount]
  | cons hd tl ih =>
    obtain ⟨k0, v0⟩ := hd
    simp only [Tracker.containsKey, Bool.or_eq_false_iff] at h
    have hk : ¬ k0 = k := by
      intro he
      exact absurd (decide_eq_true he) (by simp [h.1])
    simp [Tracker.getCount, hk, ih h.2]

theorem Tracker.containsKey_of_getCount_pos (t : Tracker) (k : String)
    (h : 0 < t.getCount k) : t.containsKey k = true := by
  cases hc : t.containsKey k with
  | true => rfl
  | false => exact absurd (Tracker.getCount_eq_zero_of_not_contains t k hc) (by omega)

theorem check_rate_limit_denied (t : Tracker) (u d : String)
    (h : DAILY_LIMIT ≤ t.getCount (quotaKey u d)) :
    check_rate_limit t u d = (false, t) := by
  have hpos : 0 < t.getCount (quotaKey u d) := by
    have : 0 < DAILY_LIMIT := by decide
    omega
  have hc : t.containsKey (quotaKey u d) = true :=
    Tracker.containsKey_of_getCount_pos t _ hpos
  simp [check_rate_limit, hc, h]

theorem check_rate_limit_allowed (t : Tracker) (u d : String)
    (h : t.getCount (quotaKey u d) < DAILY_LIMIT) :
    (check_rate_limit t u d).1 = true ∧
    (check_rate_limit t u d).2.getCount (quotaKey u d) = t.getCount (quotaKey u d) + 1 := by
  unfold check_rate_limit
  cases hc : t.containsKey (quotaKey u d) with
  | true =>
    have hn : ¬ DAILY_LIMIT ≤ t.getCount (quotaKey u d) := Nat.not_le.mpr h
    simp [hc, hn, Tracker.getCount_setCount_self]
  | false =>
    have h0 : t.getCount (quotaKey u d) = 0 :=
      Tracker.getCount_eq_zero_of_not_contains t _ hc
    have hset : (t.setCount (quotaKey u d) 0).getCount (quotaKey u d) = 0 :=
      Tracker.getCount_setCount_self t _ 0
    simp [hc, hset, h0, Tracker.getCount_setCount_self, DAILY_LIMIT]

/-- One accepted request with the Anthropic key set and a successful
Anthropic call: a 200 with the stripped command, the count bumped by one,
the remaining value computed from the bumped count, one Anthropic call. -/
theorem generate_step_ok (env : ServerEnv) (t : Tracker) (u d : String)
    (body : Option (List (String × String))) (aResp oResp : ApiResponse)
    (k p cmd : String)
    (hk : env.anthropic_api_key = some k)
    (hp : extractPrompt body = some p)
    (hq : t.getCount (quotaKey u d) < DAILY_LIMIT)
    (hc : call_anthropic aResp = .ok cmd) :
    (generate_command env t u d body aResp oResp).result
        = .ok cmd ((DAILY_LIMIT : Int) - ((t.getCount (quotaKey u d) + 1 : Nat) : Int))
    ∧ (generate_command env t u d body aResp oResp).tracker.getCount (quotaKey u d)
        = t.getCount (quotaKey u d) + 1
    ∧ (generate_command env t u d body aResp oResp).trace = ⟨1, 0⟩ := by
  obtain ⟨hb, hcnt⟩ := check_rate_limit_allowed t u d hq
  simp [generate_command, hp, hk, hc, hb, hcnt]

/-- One denied request: a 429 with the fixed message, the tracker exactly
unchanged, and no provider call. -/
theorem generate_step_denied (env : ServerEnv) (t : Tracker) (u d : String)
    (body : Option (List (String × String))) (aResp oResp : ApiResponse) (p : String)
    (hp : extractPrompt body = some p)
    (hq : DAILY_LIMIT ≤ t.getCount (quotaKey u d)) :
    generate_command env t u d body aResp oResp
      = ⟨.rateLimited rateLimitMessage, t, ⟨0, 0⟩⟩ := by
  have hd := check_rate_limit_denied t u d hq
  simp [generate_command, hp, hd]

/-- Running N consecutive requests under the limit: each one is accepted,
returns a remaining value that drops by one per request, and bumps the
stored count by one. -/
theorem runRequests_spec (env : ServerEnv) (u d : String)
    (body : Option (List (String × String))) (aResp oResp : ApiResponse)
    (k p cmd : String)
    (hk : env.anthropic_api_key = some k)
    (hp : extractPrompt body = some p)
    (hc : call_anthropic aResp = .ok cmd) :
    ∀ (N : Nat) (t : Tracker) (c : Nat),
      t.getCount (quotaKey u d) = c → c + N ≤ DAILY_LIMIT →
      (runRequests env u d body aResp oResp N t).1
        = (List.range N).map
            (fun (i : Nat) => ServerResult.ok cmd ((DAILY_LIMIT : Int) - (c : Int) - (i : Int) - 1))
      ∧ (runRequests env u d body aResp oResp N t).2.getCount (quotaKey u d) = c + N := by
  intro N
  induction N with
  | zero => intro t c hct _; simp [runRequests, hct]
  | succ n ih =>
    intro t c hct hle
    have hq : t.getCount (quotaKey u d) < DAILY_LIMIT := by omega
    obtain ⟨hres, hcnt, -⟩ := generate_step_ok env t u d body aResp oResp k p cmd hk hp hq hc
    obtain ⟨ih1, ih2⟩ := ih (generate_command env t u d body aResp oResp).tracker (c + 1)
      (by rw [hcnt, hct]) (by omega)
    constructor
    · simp only [runRequests]
      rw [ih1, hres, hct, List.range_succ_eq_map]
      simp only [List.map_cons, List.map_map]
      congr 1
      · congr 1
        push_cast
        ring
      · apply List.map_congr_left
        intro i _
        simp only [Function.comp_apply]
        congr 1
        push_cast
        ring
    · simp only [runRequests]
      rw [ih2]
      omega

/-- C2: the quota check returns false and leaves the tracker unchanged
when the stored count for the (caller, day) key has reached DAILY_LIMIT,
and otherwise increments that count by exactly one and returns true. -/
theorem claim2_check_rate_limit_spec (t : Tracker) (u d : String) :
    (DAILY_LIMIT ≤ t.getCount (quotaKey u d) →
        check_rate_limit t u d = (false, t))
    ∧ (t.getCount (quotaKey u d) < DAILY_LIMIT →
        (check_rate_limit t u d).1 = true ∧
        (check_rate_limit t u d).2.getCount (quotaKey u d)
          = t.getCount (quotaKey u d) + 1) :=
  ⟨fun h => check_rate_limit_denied t u d h,
   fun h => check_rate_limit_allowed t u d h⟩

/-- Witness for C2: a caller at the limit is denied with the tracker
untouched; a fresh caller is allowed and the count becomes 1. -/
theorem claim2_check_rate_limit_spec_witness :
    check_rate_limit [("u:2024-01-01", 50)] "u" "2024-01-01"
      = (false, [("u:2024-01-01", 50)])
    ∧ ((check_rate_limit [] "u" "2024-01-01").1 = true
        ∧ (check_rate_limit [] "u" "2024-01-01").2.getCount (quotaKey "u" "2024-01-01")
            = Tracker.getCount [] (quotaKey "u" "2024-01-01") + 1) :=
  ⟨(claim2_check_rate_limit_spec [("u:2024-01-01", 50)] "u" "2024-01-01").1 (by decide),
   (claim2_check_rate_limit_spec [] "u" "2024-01-01").2 (by decide)⟩

/-- C3: for a caller starting the day fresh, the i-th of N consecutive
accepted requests (N at most the limit) returns remaining = DAILY_LIMIT - i,
so remaining drops by exactly one per request and by N over the whole
sequence; and when N = DAILY_LIMIT the next request of the same day is
rejected with the RateLimited message, leaves the tracker unchanged and
makes no provider call. -/
theorem claim3_quota_sequence (env : ServerEnv) (u d : String)
    (body : Option (List (String × String))) (aResp oResp : ApiResponse)
    (k p cmd : String) (t0 : Tracker) (N : Nat)
    (hk : env.anthropic_api_key = some k)
    (hp : extractPrompt body = some p)
    (hc : call_anthropic aResp = .ok cmd)
    (h0 : t0.getCount (quotaKey u d) = 0)
    (hN : N ≤ DAILY_LIMIT) :
    (runRequests env u d body aResp oResp N t0).1
      = (List.range N).map
          (fun (i : Nat) => ServerResult.ok cmd ((DAILY_LIMIT : Int) - (i : Int) - 1))
    ∧ (N = DAILY_LIMIT →
        generate_command env (runRequests env u d body aResp oResp N t0).2 u d body aResp oResp
          = ⟨.rateLimited rateLimitMessage,
             (runRequests env u d body aResp oResp N t0).2, ⟨0, 0⟩⟩) := by
  obtain ⟨h1, h2⟩ :=
    runRequests_spec env u d body aResp oResp k p cmd hk hp hc N t0 0 h0 (by omega)
  constructor
  · simp only [Nat.cast_zero, sub_zero] at h1
    exact h1
  · intro hNeq
    apply generate_step_denied env _ u d body aResp oResp p hp
    rw [h2, hNeq]
    omega

/-- Witness for C3 at a concrete run: Anthropic-only server, fresh
caller, upstream always answering 200 with " ls -la "; the 50 accepted
requests count down and the 51st is rejected with no provider call. -/
theorem claim3_quota_sequence_witness :
    (runRequests ⟨some "a", none⟩ "u" "2024-01-01" (some [("prompt", "list files")])
        ⟨200, some " ls -la ", ""⟩ ⟨200, none, ""⟩ 50 []).1
      = (List.range 50).map
          (fun (i : Nat) => ServerResult.ok "ls -la" ((DAILY_LIMIT : Int) - (i : Int) - 1))
    ∧ generate_command ⟨some "a", none⟩
        (runRequests ⟨some "a", none⟩ "u" "2024-01-01" (some [("prompt", "list files")])
          ⟨200, some " ls -la ", ""⟩ ⟨200, none, ""⟩ 50 []).2
        "u" "2024-01-01" (some [("prompt", "list files")])
        ⟨200, some " ls -la ", ""⟩ ⟨200, none, ""⟩
      = ⟨.rateLimited rateLimitMessage,
         (runRequests ⟨some "a", none⟩ "u" "2024-01-01" (some [("prompt", "list files")])
           ⟨200, some " ls -la ", ""⟩ ⟨200, none, ""⟩ 50 []).2, ⟨0, 0⟩⟩ := by
  have h := claim3_quota_sequence ⟨some "a", none⟩ "u" "2024-01-01"
      (some [("prompt", "list files")]) ⟨200, some " ls -la ", ""⟩ ⟨200, none, ""⟩
      "a" "list files" "ls -la" [] 50 rfl rfl (by rfl) rfl (by decide)
  exact ⟨h.1, h.2 rfl⟩

/-- C7: a caller whose count for the old day has reached the limit is
nonetheless allowed on a day whose quota key is fresh (count 0): the
check passes, and with a succeeding provider call the request returns
remaining = DAILY_LIMIT - 1. -/
theorem claim7_day_rollover (env : ServerEnv) (t : Tracker) (u d d2 : String)
    (body : Option (List (String × String))) (aResp oResp : ApiResponse)
    (k p cmd : String)
    (hlim : DAILY_LIMIT ≤ t.getCount (quotaKey u d))
    (hfresh : t.getCount (quotaKey u d2) = 0)
    (hk : env.anthropic_api_key = some k)
    (hp : extractPrompt body = some p)
    (hc : call_anthropic aResp = .ok cmd) :
    (check_rate_limit t u d2).1 = true
    ∧ (generate_command env t u d2 body aResp oResp).result
        = .ok cmd ((DAILY_LIMIT : Int) - 1) := by
  have h0 : t.getCount (quotaKey u d2) < DAILY_LIMIT := by
    rw [hfresh]; decide
  refine ⟨(check_rate_limit_allowed t u d2 h0).1, ?_⟩
  obtain ⟨hres, -, -⟩ := generate_step_ok env t u d2 body aResp oResp k p cmd hk hp h0 hc
  rw [hres, hfresh]
  norm_num

/-- Witness for C7: the caller is at the limit for 2024-01-01 and makes a
request on 2024-01-02. -/
theorem claim7_day_rollover_witness :
    (check_rate_limit [("u:2024-01-01", 50)] "u" "2024-01-02").1 = true
    ∧ (generate_command ⟨some "a", none⟩ [("u:2024-01-01", 50)] "u" "2024-01-02"
        (some [("prompt", "list files")]) ⟨200, some "ls", ""⟩ ⟨200, none, ""⟩).result
        = .ok "ls" ((DAILY_LIMIT : Int) - 1) :=
  claim7_day_rollover ⟨some "a", none⟩ [("u:2024-01-01", 50)] "u" "2024-01-01" "2024-01-02"
    (some [("prompt", "list files")]) ⟨200, some "ls", ""⟩ ⟨200, none, ""⟩
    "a" "list files" "ls" (by decide) (by decide) rfl rfl (by rfl)

/-- C9: every request that passes the rate-limit check leaves the stored
count for the (caller, day) key at exactly old count + 1, whatever the
configured keys and whatever the two upstream responses are - in
particular a request that then ends in the no-keys ConfigError or in an
upstream 500 has still consumed one unit of quota, and nothing ever
decrements the count. -/
theorem claim9_quota_consumed (env : ServerEnv) (t : Tracker) (u d : String)
    (body : Option (List (String × String))) (aResp oResp : ApiResponse) (p : String)
    (hp : extractPrompt body = some p)
    (hq : t.getCount (quotaKey u d) < DAILY_LIMIT) :
    (generate_command env t u d body aResp oResp).tracker.getCount (quotaKey u d)
      = t.getCount (quotaKey u d) + 1 := by
  obtain ⟨hb, hcnt⟩ := check_rate_limit_allowed t u d hq
  obtain ⟨ak, oak⟩ := env
  cases ak <;> cases oak <;>
    cases hca : call_anthropic aResp <;> cases hco : call_openai oResp <;>
      simp [generate_command, hp, hb, hca, hco, hcnt] <;>
      split <;> simp [hcnt]

/-- Witness for C9: a request with no keys configured (a 500 ConfigError)
still bumps the fresh caller's count from 0 to 1. -/
theorem claim9_quota_consumed_witness :
    (generate_command ⟨none, none⟩ [] "u" "2024-01-01" (some [("prompt", "x")])
        ⟨200, some "y", ""⟩ ⟨200, some "z", ""⟩).tracker.getCount (quotaKey "u" "2024-01-01")
      = Tracker.getCount [] (quotaKey "u" "2024-01-01") + 1 :=
  claim9_quota_consumed ⟨none, none⟩ [] "u" "2024-01-01" (some [("prompt", "x")])
    ⟨200, some "y", ""⟩ ⟨200, some "z", ""⟩ "x" rfl (by decide)

/-- C10: the usage endpoint returns the tracker it was given completely
unchanged (it only reads with default 0), and its response always
satisfies used_today + remaining_today = daily_limit. -/
theorem claim10_get_usage_pure (t : Tracker) (tok d : String) :
    (get_usage t tok d).2 = t
    ∧ ((get_usage t tok d).1.used_today : Int) + (get_usage t tok d).1.remaining_today
        = ((get_usage t tok d).1.daily_limit : Int) := by
  refine ⟨rfl, ?_⟩
  simp [get_usage]

/-- Counterexample to C1 as stated: with both credentials configured, a
primary Anthropic call that fails on a malformed success payload (HTTP
200 whose body lacks the content field, a KeyError whose message does not
start with "API error") triggers no fallback call at all: the openai call
count is 0, not 1, and the surfaced 500 carries the KeyError text rather
than a both-APIs-failed message. -/
theorem claim1_counterexample :
    call_anthropic ⟨200, none, "oops"⟩ = Except.error "\x27content\x27"
    ∧ (generate_command ⟨some "a", some "b"⟩ [] "u" "2024-01-01"
        (some [("prompt", "git push")]) ⟨200, none, "oops"⟩ ⟨200, some "ls", ""⟩).trace
        = ⟨1, 0⟩
    ∧ (generate_command ⟨some "a", some "b"⟩ [] "u" "2024-01-01"
        (some [("prompt", "git push")]) ⟨200, none, "oops"⟩ ⟨200, some "ls", ""⟩).result
        = .serverError "\x27content\x27" := by
  exact ⟨rfl, by decide, by decide⟩

/-- C1 (amended): when both credentials are configured and the primary
Anthropic call fails with an exception whose message starts with
"API error" (the non-success-status failure mode; any other primary
failure is re-raised without a fallback), exactly one fallback call to
OpenAI is made, so total provider calls equal 2; if the fallback also
fails, the request terminates with a 500 whose message is
"Both APIs failed: " followed by the fallback vendor's error; if the
fallback succeeds, its command is returned. -/
theorem claim1_fallback_once (env : ServerEnv) (t : Tracker) (u d : String)
    (body : Option (List (String × String))) (aResp oResp : ApiResponse)
    (ak ok2 p e : String)
    (hk : env.anthropic_api_key = some ak)
    (ho : env.openai_api_key = some ok2)
    (hp : extractPrompt body = some p)
    (hq : t.getCount (quotaKey u d) < DAILY_LIMIT)
    (hca : call_anthropic aResp = .error e)
    (hpre : pyStartsWith e "API error" = true) :
    (generate_command env t u d body aResp oResp).trace = ⟨1, 1⟩
    ∧ (∀ fe, call_openai oResp = .error fe →
        (generate_command env t u d body aResp oResp).result
          = .serverError ("Both APIs failed: " ++ fe))
    ∧ (∀ cmd, call_openai oResp = .ok cmd →
        (generate_command env t u d body aResp oResp).result
          = .ok cmd ((DAILY_LIMIT : Int) - ((t.getCount (quotaKey u d) + 1 : Nat) : Int))) := by
  obtain ⟨hb, hcnt⟩ := check_rate_limit_allowed t u d hq
  refine ⟨?_, ?_, ?_⟩
  · cases hco : call_openai oResp <;>
      simp [generate_command, hp, hk, ho, hca, hco, hb, hpre]
  · intro fe hfe
    simp [generate_command, hp, hk, ho, hca, hfe, hb, hpre]
  · intro cmd hcmd
    simp [generate_command, hp, hk, ho, hca, hcmd, hb, hpre, hcnt]

/-- Witness for C1 (amended): primary gets a 429 from Anthropic, the
fallback gets a 500 from OpenAI; two calls total and the 500 references
the fallback failure. -/
theorem claim1_fallback_once_witness :
    (generate_command ⟨some "a", some "b"⟩ [] "u" "2024-01-01"
        (some [("prompt", "git push")]) ⟨429, none, "rate"⟩ ⟨500, none, "down"⟩).trace
      = ⟨1, 1⟩
    ∧ (generate_command ⟨some "a", some "b"⟩ [] "u" "2024-01-01"
        (some [("prompt", "git push")]) ⟨429, none, "rate"⟩ ⟨500, none, "down"⟩).result
      = .serverError ("Both APIs failed: " ++ "API error: down") := by
  have h := claim1_fallback_once ⟨some "a", some "b"⟩ [] "u" "2024-01-01"
      (some [("prompt", "git push")]) ⟨429, none, "rate"⟩ ⟨500, none, "down"⟩
      "a" "b" "git push" "API error: rate" rfl rfl rfl (by decide) rfl (by decide)
  exact ⟨h.1, h.2.1 "API error: down" rfl⟩

/-- Counterexample to C4 as stated: the validation at api_server.py line
105 only checks that the key "prompt" is present, so the empty-string
prompt in the body is not rejected with a 400: the request is accepted,
the quota count is incremented to 1, the provider is called once and a
200 is returned. -/
theorem claim4_counterexample :
    extractPrompt (some [("prompt", "")]) = some ""
    ∧ (generate_command ⟨some "a", none⟩ [] "u" "2024-01-01" (some [("prompt", "")])
        ⟨200, some "ls -la", ""⟩ ⟨200, none, ""⟩)
      = ⟨.ok "ls -la" 49, [("u:2024-01-01", 1)], ⟨1, 0⟩⟩ := by
  decide

/-- C4 (amended): a request whose JSON body is absent, an empty object,
or an object without the key "prompt" is rejected with the 400
missing-prompt response, leaving the tracker untouched and making zero
provider calls; a present but empty-string prompt, however, is not
rejected and proceeds as a normal request. -/
theorem claim4_missing_prompt (env : ServerEnv) (t : Tracker) (u d : String)
    (body : Option (List (String × String))) (aResp oResp : ApiResponse)
    (hnone : extractPrompt body = none) :
    generate_command env t u d body aResp oResp = ⟨.missingPrompt, t, ⟨0, 0⟩⟩ := by
  simp [generate_command, hnone]

/-- Witness for C4 (amended) at a request with no JSON body. -/
theorem claim4_missing_prompt_witness :
    generate_command ⟨some "a", some "b"⟩ [] "u" "2024-01-01" none
        ⟨200, some "x", ""⟩ ⟨200, some "y", ""⟩
      = ⟨.missingPrompt, [], ⟨0, 0⟩⟩ :=
  claim4_missing_prompt ⟨some "a", some "b"⟩ [] "u" "2024-01-01" none
    ⟨200, some "x", ""⟩ ⟨200, some "y", ""⟩ rfl

/-- Counterexample to C6 as stated: with neither credential configured, a
caller already at the daily limit receives the 429 RateLimited response,
not the 500 no-keys ConfigError, so dispatch with no credentials does not
always terminate with a ConfigError; zero provider calls are still made. -/
theorem claim6_counterexample :
    (generate_command ⟨none, none⟩ [("u:2024-01-01", 50)] "u" "2024-01-01"
        (some [("prompt", "x")]) ⟨200, some "y", ""⟩ ⟨200, some "z", ""⟩).result
      = .rateLimited rateLimitMessage
    ∧ (generate_command ⟨none, none⟩ [("u:2024-01-01", 50)] "u" "2024-01-01"
        (some [("prompt", "x")]) ⟨200, some "y", ""⟩ ⟨200, some "z", ""⟩).result
      ≠ .serverError "No API keys configured on server"
    ∧ (generate_command ⟨none, none⟩ [("u:2024-01-01", 50)] "u" "2024-01-01"
        (some [("prompt", "x")]) ⟨200, some "y", ""⟩ ⟨200, some "z", ""⟩).trace
      = ⟨0, 0⟩ := by
  decide

/-- C6 (amended): with neither credential configured the server makes
zero provider calls on every request whatsoever, and every request that
passes validation and the quota check terminates with the 500 no-keys
error; likewise the CLI with no credentials makes zero provider calls on
every run and, given a prompt with no --provider flag and not --config,
reports the no-provider-configured error.  (The one exception to
"always ConfigError" is a quota-denied request, which yields the 429.) -/
theorem claim6_no_keys (t : Tracker) (u d : String)
    (body : Option (List (String × String))) (aResp oResp : ApiResponse) :
    (generate_command ⟨none, none⟩ t u d body aResp oResp).trace = ⟨0, 0⟩
    ∧ (∀ p, extractPrompt body = some p →
        t.getCount (quotaKey u d) < DAILY_LIMIT →
        (generate_command ⟨none, none⟩ t u d body aResp oResp).result
          = .serverError "No API keys configured on server")
    ∧ (∀ (cfg exec : Bool) (prompt : Option String) (pf : Option Vendor)
        (m : Option String) (gen : Provider → String → Except String String) (c : Bool),
        (lal_main ⟨none, none⟩ cfg prompt exec pf m gen c).calls = [])
    ∧ (∀ (p : String) (exec : Bool) (m : Option String)
        (gen : Provider → String → Except String String) (c : Bool),
        (lal_main ⟨none, none⟩ false (some p) exec none m gen c).errorMsg
          = some "No AI provider configured. Set OPENAI_API_KEY or ANTHROPIC_API_KEY environment variable.") := by
  refine ⟨?_, ?_, ?_, ?_⟩
  · cases hx : extractPrompt body with
    | none => simp [generate_command, hx]
    | some p =>
      cases hb : (check_rate_limit t u d).1 <;>
        simp [generate_command, hx, hb]
  · intro p hp hq
    obtain ⟨hb, -⟩ := check_rate_limit_allowed t u d hq
    simp [generate_command, hp, hb]
  · intro cfg exec prompt pf m gen c
    cases cfg
    · cases prompt
      · simp [lal_main]
      · cases pf with
        | none => simp [lal_main, select_provider, get_ai_provider]
        | some v => cases v <;> simp [lal_main, select_provider]
    · simp [lal_main]
  · intro p exec m gen c
    simp [lal_main, select_provider, get_ai_provider]

/-- Witness for C6 (amended): a fresh caller with a valid prompt, no keys
configured. -/
theorem claim6_no_keys_witness :
    (generate_command ⟨none, none⟩ [] "u" "2024-01-01" (some [("prompt", "x")])
        ⟨200, some "y", ""⟩ ⟨200, some "z", ""⟩).trace = ⟨0, 0⟩
    ∧ (generate_command ⟨none, none⟩ [] "u" "2024-01-01" (some [("prompt", "x")])
        ⟨200, some "y", ""⟩ ⟨200, some "z", ""⟩).result
      = .serverError "No API keys configured on server"
    ∧ (lal_main ⟨none, none⟩ false (some "x") true none none
        (fun _ _ => .ok "ls") true).calls = []
    ∧ (lal_main ⟨none, none⟩ false (some "x") true none none
        (fun _ _ => .ok "ls") true).errorMsg
      = some "No AI provider configured. Set OPENAI_API_KEY or ANTHROPIC_API_KEY environment variable." := by
  have h := claim6_no_keys [] "u" "2024-01-01" (some [("prompt", "x")])
      ⟨200, some "y", ""⟩ ⟨200, some "z", ""⟩
  exact ⟨h.1, h.2.1 "x" rfl (by decide),
    h.2.2.1 false true (some "x") none none (fun _ _ => .ok "ls") true,
    h.2.2.2 "x" true none (fun _ _ => .ok "ls") true⟩

/-- C5: provider selection policy of the CLI.  An explicit vendor flag
with its credential present yields that vendor's client (with the model
override applied as Python `model or default`); an explicit flag whose
credential is absent fails with the corresponding error and the run makes
zero provider calls, whatever the other credential is; with no flag,
Anthropic is chosen whenever its credential is present, else OpenAI when
its credential is present. -/
theorem claim5_provider_selection (env : Env) (m : Option String) :
    (∀ k, env.openai_api_key = some k →
        select_provider env (some .openai) m
          = .ok (.OpenAIProvider k (pyOr m "gpt-4o-mini")))
    ∧ (∀ k, env.anthropic_api_key = some k →
        select_provider env (some .anthropic) m
          = .ok (.AnthropicProvider k (pyOr m "claude-3-5-haiku-20241022")))
    ∧ (env.openai_api_key = none →
        select_provider env (some .openai) m = .error "OPENAI_API_KEY not set"
        ∧ ∀ (cfg exec : Bool) (p : String)
            (gen : Provider → String → Except String String) (c : Bool),
            (lal_main env cfg (some p) exec (some .openai) m gen c).calls = [])
    ∧ (env.anthropic_api_key = none →
        select_provider env (some .anthropic) m = .error "ANTHROPIC_API_KEY not set"
        ∧ ∀ (cfg exec : Bool) (p : String)
            (gen : Provider → String → Except String String) (c : Bool),
            (lal_main env cfg (some p) exec (some .anthropic) m gen c).calls = [])
    ∧ (∀ k, env.anthropic_api_key = some k →
        select_provider env none m = .ok (.AnthropicProvider k "claude-3-5-haiku-20241022"))
    ∧ (env.anthropic_api_key = none → ∀ k, env.openai_api_key = some k →
        select_provider env none m = .ok (.OpenAIProvider k "gpt-4o-mini")) := by
  refine ⟨?_, ?_, ?_, ?_, ?_, ?_⟩
  · intro k hk; simp [select_provider, hk]
  · intro k hk; simp [select_provider, hk]
  · intro hn
    refine ⟨by simp [select_provider, hn], ?_⟩
    intro cfg exec p gen c
    cases cfg <;> simp [lal_main, select_provider, hn]
  · intro hn
    refine ⟨by simp [select_provider, hn], ?_⟩
    intro cfg exec p gen c
    cases cfg <;> simp [lal_main, select_provider, hn]
  · intro k hk; simp [select_provider, get_ai_provider, hk]
  · intro hn k hk; simp [select_provider, get_ai_provider, hn, hk]

/-- Witness for C5 at two concrete environments: Anthropic-only (an
explicit openai flag fails with zero calls; no flag picks Anthropic) and
OpenAI-only (no flag picks OpenAI; an explicit openai flag picks OpenAI). -/
theorem claim5_provider_selection_witness :
    select_provider ⟨some "A", none⟩ (some .openai) none
      = .error "OPENAI_API_KEY not set"
    ∧ (lal_main ⟨some "A", none⟩ false (some "x") true (some .openai) none
        (fun _ _ => .ok "ls") true).calls = []
    ∧ select_provider ⟨some "A", none⟩ none none
      = .ok (.AnthropicProvider "A" "claude-3-5-haiku-20241022")
    ∧ select_provider ⟨none, some "O"⟩ none none
      = .ok (.OpenAIProvider "O" "gpt-4o-mini")
    ∧ select_provider ⟨none, some "O"⟩ (some .openai) none
      = .ok (.OpenAIProvider "O" (pyOr none "gpt-4o-mini")) := by
  have h1 := claim5_provider_selection ⟨some "A", none⟩ none
  have h2 := claim5_provider_selection ⟨none, some "O"⟩ none
  exact ⟨(h1.2.2.1 rfl).1, (h1.2.2.1 rfl).2 false true "x" (fun _ _ => .ok "ls") true,
    h1.2.2.2.2.1 "A" rfl, h2.2.2.2.2.2 rfl "O" rfl, h2.1 "O" rfl⟩

/-- Every lal.py run either performs zero shell executions or ran with the
execute flag set, an affirmative confirmation, and exactly the produced
command executed. -/
theorem lal_main_exec_spec (env : Env) (cfg : Bool) (prompt : Option String)
    (exec : Bool) (pf : Option Vendor) (m : Option String)
    (gen : Provider → String → Except String String) (c : Bool) :
    (lal_main env cfg prompt exec pf m gen c).shellExecs = []
    ∨ (exec = true ∧ c = true ∧ ∃ cmd,
        (lal_main env cfg prompt exec pf m gen c).printedCommand = some cmd ∧
        (lal_main env cfg prompt exec pf m gen c).shellExecs = [cmd]) := by
  unfold lal_main
  split
  · left; rfl
  · split
    · left; rfl
    · split
      · left; rfl
      · split
        · left; rfl
        · split
          · split
            · next hexec hconf =>
              right
              exact ⟨hexec, hconf, _, rfl, rfl⟩
            · left; rfl
          · left; rfl

/-- Every lal_simple.py run either performs zero shell executions or ran
with the execute flag set, the confirmation input lowercased to "y", and
exactly the produced command executed. -/
theorem lal_simple_exec_spec (env : Env) (p : String) (exec : Bool)
    (pf : Option String) (gen : Vendor → String → Except String String)
    (ci : String) :
    (lal_simple_main env p exec pf gen ci).shellExecs = []
    ∨ (exec = true ∧ pyLower ci = "y" ∧ ∃ cmd,
        (lal_simple_main env p exec pf gen ci).printedCommand = some cmd ∧
        (lal_simple_main env p exec pf gen ci).shellExecs = [cmd]) := by
  unfold lal_simple_main
  split
  · left; rfl
  · split
    · left; rfl
    · split
      · left; rfl
      · split
        · split
          · right; exact ⟨by assumption, by assumption, _, rfl, rfl⟩
          · left; rfl
        · left; rfl

/-- C8: the shell is never invoked unless a command string was produced,
the execute flag was set, and confirmation was affirmative, in both local
tools; a run without the flag, or with a declined confirmation, performs
zero shell executions. -/
theorem claim8_execution_gate (env : Env) (cfg : Bool) (prompt : Option String)
    (exec : Bool) (pf : Option Vendor) (m : Option String)
    (gen : Provider → String → Except String String) (c : Bool)
    (p2 : String) (exec2 : Bool) (pf2 : Option String)
    (gen2 : Vendor → String → Except String String) (ci : String) :
    (exec = false → (lal_main env cfg prompt exec pf m gen c).shellExecs = [])
    ∧ (c = false → (lal_main env cfg prompt exec pf m gen c).shellExecs = [])
    ∧ ((lal_main env cfg prompt exec pf m gen c).shellExecs ≠ [] →
        exec = true ∧ c = true ∧ ∃ cmd,
          (lal_main env cfg prompt exec pf m gen c).printedCommand = some cmd
          ∧ (lal_main env cfg prompt exec pf m gen c).shellExecs = [cmd])
    ∧ (exec2 = false → (lal_simple_main env p2 exec2 pf2 gen2 ci).shellExecs = [])
    ∧ (pyLower ci ≠ "y" → (lal_simple_main env p2 exec2 pf2 gen2 ci).shellExecs = [])
    ∧ ((lal_simple_main env p2 exec2 pf2 gen2 ci).shellExecs ≠ [] →
        exec2 = true ∧ pyLower ci = "y" ∧ ∃ cmd,
          (lal_simple_main env p2 exec2 pf2 gen2 ci).printedCommand = some cmd
          ∧ (lal_simple_main env p2 exec2 pf2 gen2 ci).shellExecs = [cmd]) := by
  have h1 := lal_main_exec_spec env cfg prompt exec pf m gen c
  have h2 := lal_simple_exec_spec env p2 exec2 pf2 gen2 ci
  refine ⟨?_, ?_, ?_, ?_, ?_, ?_⟩
  · intro he
    rcases h1 with h | ⟨he2, -, -⟩
    · exact h
    · rw [he] at he2; cases he2
  · intro hc
    rcases h1 with h | ⟨-, hc2, -⟩
    · exact h
    · rw [hc] at hc2; cases hc2
  · intro hne
    rcases h1 with h | h
    · exact absurd h hne
    · exact h
  · intro he
    rcases h2 with h | ⟨he2, -, -⟩
    · exact h
    · rw [he] at he2; cases he2
  · intro hc
    rcases h2 with h | ⟨-, hc2, -⟩
    · exact h
    · exact absurd hc2 hc
  · intro hne
    rcases h2 with h | h
    · exact absurd h hne
    · exact h

/-- Witness for C8: with the execute flag set, a declined confirmation
performs zero executions in both tools, while an affirmative confirmation
executes exactly the produced command. -/
theorem claim8_execution_gate_witness :
    (lal_main ⟨some "A", none⟩ false (some "x") true none none
        (fun _ _ => .ok "ls") false).shellExecs = []
    ∧ (true = true ∧ true = true ∧ ∃ cmd,
        (lal_main ⟨some "A", none⟩ false (some "x") true none none
          (fun _ _ => .ok "ls") true).printedCommand = some cmd
        ∧ (lal_main ⟨some "A", none⟩ false (some "x") true none none
            (fun _ _ => .ok "ls") true).shellExecs = [cmd])
    ∧ (lal_simple_main ⟨some "A", none⟩ "x" true none
        (fun _ _ => .ok "ls") "n").shellExecs = [] := by
  have h1 := claim8_execution_gate ⟨some "A", none⟩ false (some "x") true none none
      (fun _ _ => .ok "ls") false "x" true none (fun _ _ => .ok "ls") "n"
  have h2 := claim8_execution_gate ⟨some "A", none⟩ false (some "x") true none none
      (fun _ _ => .ok "ls") true "x" true none (fun _ _ => .ok "ls") "n"
  exact ⟨h1.2.1 rfl, h2.2.2.1 (by decide), h1.2.2.2.2.1 (by decide)⟩

end LalSpec
